import Mathlib

/-!
Shallow embedding of RustPython's `vm/src/stdlib/os.rs` (the `os` module of
the VM) for checking its natural-language specification.  Rust functions are
translated into executable Lean definitions; the surrounding VM and native
syscalls are modelled by explicit parameters (oracles) so every definition
stays a pure function of its inputs.
-/

namespace OsRs

/-- The portable error-kind taxonomy: one constructor per distinct
`vm.new_*_error` / exception class that the embedded code can raise.
`notImplemented` is `vm.new_not_implemented_error` (the operation-unsupported
kind), `valueError` is `vm.new_value_error` (the invalid-argument kind),
`osError` is `vm.new_os_error` (the generic OS-error kind). -/
inductive ErrKind where
  | typeError
  | valueError
  | osError
  | overflowError
  | notImplemented
  | unicodeDecodeError
  | stopIteration
  | ioError
  deriving DecidableEq, Repr

/-! ## Capability gate: `DirFd<AVAILABLE>` (os.rs lines 228-294) -/

/-- `AT_FDCWD`: on unix `libc::AT_FDCWD` (−100 on Linux); the non-unix
fallback in os.rs is likewise `-100`. -/
def AT_FDCWD : Int := -100

/-- `DEFAULT_DIR_FD: Fd = Fd(AT_FDCWD)` (os.rs line 235), as the wrapped
integer. -/
def DEFAULT_DIR_FD : Int := AT_FDCWD

/-- The `dir_fd` keyword argument as it can arrive in `FuncArgs`:
absent, Python `None`, or an integer object (`Fd` wraps an `i32`, and
`int::try_to_primitive` converts the Python int to that width). -/
inductive DirFdKw where
  | absent
  | pyNone
  | int (i : Int)
  deriving DecidableEq, Repr

/-- `i32` range bounds used by `int::try_to_primitive::<i32>`
(−2³¹ and 2³¹ − 1). -/
def i32Min : Int := -2147483648

def i32Max : Int := 2147483647

/-- `DirFd::<AVAILABLE>::from_args` (os.rs lines 271-294).  `available`
stands for `AVAILABLE != 0`.  A missing or `None` keyword yields
`DEFAULT_DIR_FD`; an integer is first converted to `i32`
(`int::try_to_primitive`, failing with an overflow error outside the `i32`
range); then, when the capability is absent and the fd is non-default, the
call fails with the operation-unsupported kind. -/
def dirFdFromArgs (available : Bool) (arg : DirFdKw) : Except ErrKind Int := do
  let fd ← match arg with
    | .absent => pure DEFAULT_DIR_FD
    | .pyNone => pure DEFAULT_DIR_FD
    | .int i =>
      if i < i32Min ∨ i32Max < i then throw ErrKind.overflowError else pure i
  if available = false ∧ fd ≠ DEFAULT_DIR_FD then
    throw ErrKind.notImplemented
  else
    pure fd

/-! ## Path values and output modes (os.rs lines 43-158) -/

/-- `OutputMode` (os.rs lines 43-47): the remembered encoding of a path
argument. -/
inductive OutputMode where
  | string
  | bytes
  deriving DecidableEq, Repr

/-- An OS path, as its byte sequence (unix `OsStr` bytes). -/
abbrev OsPath := List Nat

/-- UTF-8 validity of a byte sequence, as checked by Rust's
`OsString::into_string` on unix.  Standard UTF-8: no overlong forms, no
surrogates, at most U+10FFFF. -/
def utf8Valid : List Nat → Bool
  | [] => true
  | b :: rest =>
    if b < 0x80 then utf8Valid rest
    else if 0xC2 ≤ b ∧ b ≤ 0xDF then
      match rest with
      | c1 :: r => decide (0x80 ≤ c1 ∧ c1 ≤ 0xBF) && utf8Valid r
      | [] => false
    else if b = 0xE0 then
      match rest with
      | c1 :: c2 :: r =>
        decide (0xA0 ≤ c1 ∧ c1 ≤ 0xBF) && decide (0x80 ≤ c2 ∧ c2 ≤ 0xBF) &&
          utf8Valid r
      | _ => false
    else if (0xE1 ≤ b ∧ b ≤ 0xEC) ∨ b = 0xEE ∨ b = 0xEF then
      match rest with
      | c1 :: c2 :: r =>
        decide (0x80 ≤ c1 ∧ c1 ≤ 0xBF) && decide (0x80 ≤ c2 ∧ c2 ≤ 0xBF) &&
          utf8Valid r
      | _ => false
    else if b = 0xED then
      match rest with
      | c1 :: c2 :: r =>
        decide (0x80 ≤ c1 ∧ c1 ≤ 0x9F) && decide (0x80 ≤ c2 ∧ c2 ≤ 0xBF) &&
          utf8Valid r
      | _ => false
    else if b = 0xF0 then
      match rest with
      | c1 :: c2 :: c3 :: r =>
        decide (0x90 ≤ c1 ∧ c1 ≤ 0xBF) && decide (0x80 ≤ c2 ∧ c2 ≤ 0xBF) &&
          decide (0x80 ≤ c3 ∧ c3 ≤ 0xBF) && utf8Valid r
      | _ => false
    else if 0xF1 ≤ b ∧ b ≤ 0xF3 then
      match rest with
      | c1 :: c2 :: c3 :: r =>
        decide (0x80 ≤ c1 ∧ c1 ≤ 0xBF) && decide (0x80 ≤ c2 ∧ c2 ≤ 0xBF) &&
          decide (0x80 ≤ c3 ∧ c3 ≤ 0xBF) && utf8Valid r
      | _ => false
    else if b = 0xF4 then
      match rest with
      | c1 :: c2 :: c3 :: r =>
        decide (0x80 ≤ c1 ∧ c1 ≤ 0x8F) && decide (0x80 ≤ c2 ∧ c2 ≤ 0xBF) &&
          decide (0x80 ≤ c3 ∧ c3 ≤ 0xBF) && utf8Valid r
      | _ => false
    else false

/-- A path-shaped Python result object: a `str` (carrying its UTF-8 bytes)
or a `bytes`. -/
inductive PyPathResult where
  | str (p : OsPath)
  | bytes (p : OsPath)
  deriving DecidableEq, Repr

/-- The encoding tag of a path-shaped result object. -/
def PyPathResult.tag : PyPathResult → OutputMode
  | .str _ => .string
  | .bytes _ => .bytes

/-- `OutputMode::process_path` (os.rs lines 49-76), unix branch: in
`String` mode the `OsString` must convert to a UTF-8 `String` (else a
unicode-decode error); in `Bytes` mode the raw bytes are returned. -/
def OutputMode.process_path (mode : OutputMode) (path : OsPath) :
    Except ErrKind PyPathResult :=
  match mode with
  | .string =>
    if utf8Valid path then .ok (.str path) else .error .unicodeDecodeError
  | .bytes => .ok (.bytes path)

/-- `PyPathLike` (os.rs lines 78-81). -/
structure PyPathLike where
  path : OsPath
  mode : OutputMode
  deriving DecidableEq, Repr

/-- A Python object offered as a path argument, restricted to the shapes
`PyPathLike::try_from_object` accepts: a `str`, a `bytes`, or an object
whose `__fspath__` returns a `str` or a `bytes` (one level, as in the
source: the `__fspath__` result goes through `match1` once). -/
inductive PathArg where
  | str (s : OsPath)
  | bytes (b : OsPath)
  | fspathStr (s : OsPath)
  | fspathBytes (b : OsPath)
  deriving DecidableEq, Repr

/-- `PyPathLike::try_from_object` (os.rs lines 124-158): a `str` fixes
`OutputMode::String`, a `bytes` fixes `OutputMode::Bytes`
(`bytes_as_osstr` on unix is the identity on the bytes); the `__fspath__`
result is classified the same way. -/
def PyPathLike.try_from_object : PathArg → PyPathLike
  | .str s => { path := s, mode := .string }
  | .bytes b => { path := b, mode := .bytes }
  | .fspathStr s => { path := s, mode := .string }
  | .fspathBytes b => { path := b, mode := .bytes }

/-! ## readlink and listdir (os.rs lines 562-647) -/

/-- `readlink` (os.rs lines 641-647).  `fs_read_link` is the native
`fs::read_link` oracle; the result path is re-encoded with the argument
path's remembered mode. -/
def readlink (fs_read_link : OsPath → Except ErrKind OsPath)
    (path : PyPathLike) : Except ErrKind PyPathResult :=
  match fs_read_link path.path with
  | .error e => .error e
  | .ok target => path.mode.process_path target

/-- `listdir`, path branch (os.rs lines 567-575): each directory entry's
file name is processed with the argument path's mode; a native iteration
error aborts with that error. -/
def listdirPath (dir_iter : List (Except ErrKind OsPath))
    (path : PyPathLike) : Except ErrKind (List PyPathResult) :=
  match dir_iter with
  | [] => .ok []
  | .error e :: _ => .error e
  | .ok fname :: rest => do
    let r ← path.mode.process_path fname
    let l ← listdirPath rest path
    pure (r :: l)

/-- `listdir`, fd branch (os.rs lines 584-607): the raw entry names of the
duplicated-fd directory stream are filtered — `b"."` and `b".."` are
skipped — and the survivors are processed with `OutputMode::String`. -/
def listdirFd (dir_iter : List (Except ErrKind OsPath)) :
    Except ErrKind (List PyPathResult) :=
  match dir_iter with
  | [] => .ok []
  | .error e :: _ => .error e
  | .ok fname :: rest =>
    if fname = [0x2E] ∨ fname = [0x2E, 0x2E] then listdirFd rest
    else do
      let r ← OutputMode.string.process_path fname
      let l ← listdirFd rest
      pure (r :: l)

/-! ## scandir, DirEntry and ScandirIterator (os.rs lines 649-808) -/

/-- `DirEntry` (os.rs lines 652-655): a native entry (here: its file name
and full path bytes) plus the remembered output mode. -/
structure DirEntry where
  file_name : OsPath
  entry_path : OsPath
  mode : OutputMode
  deriving DecidableEq, Repr

/-- `DirEntry::name` (os.rs lines 665-668). -/
def DirEntry.name (e : DirEntry) : Except ErrKind PyPathResult :=
  e.mode.process_path e.file_name

/-- `DirEntry::path` (os.rs lines 670-673). -/
def DirEntry.path (e : DirEntry) : Except ErrKind PyPathResult :=
  e.mode.process_path e.entry_path

/-- A native directory entry as yielded by `fs::ReadDir` (name and full
path), before being wrapped into a `DirEntry`. -/
structure RawEntry where
  file_name : OsPath
  entry_path : OsPath
  deriving DecidableEq, Repr

instance {ε α : Type} [DecidableEq ε] [DecidableEq α] :
    DecidableEq (Except ε α) := fun a b =>
  match a, b with
  | .error e, .error f =>
    if h : e = f then isTrue (by rw [h])
    else isFalse (by intro hh; cases hh; exact h rfl)
  | .error _, .ok _ => isFalse (by intro hh; cases hh)
  | .ok _, .error _ => isFalse (by intro hh; cases hh)
  | .ok x, .ok y =>
    if h : x = y then isTrue (by rw [h])
    else isFalse (by intro hh; cases hh; exact h rfl)

/-- `ScandirIterator` (os.rs lines 740-744): the remaining native stream,
the atomic `exhausted` flag, and the remembered output mode. -/
structure ScandirIterator where
  entries : List (Except ErrKind RawEntry)
  exhausted : Bool
  mode : OutputMode
  deriving DecidableEq, Repr

/-- `ScandirIterator::close` (os.rs lines 754-757): store `true` in the
`exhausted` flag. -/
def ScandirIterator.close (it : ScandirIterator) : ScandirIterator :=
  { it with exhausted := true }

/-- One advance result: a yielded `DirEntry`, the stop signal
(`StopIteration`), or a propagated native error. -/
inductive NextOutcome where
  | entry (e : DirEntry)
  | stop
  | err (k : ErrKind)
  deriving DecidableEq, Repr

/-- `PyIter::next` for `ScandirIterator` (os.rs lines 769-791): if
`exhausted` is set, return the stop signal without touching the stream;
otherwise read one native entry — `Some(Ok)` yields a `DirEntry` carrying
the iterator's mode, `Some(Err)` propagates the error, `None` sets
`exhausted` and returns the stop signal.  The advanced iterator state is
returned alongside the outcome. -/
def ScandirIterator.next (it : ScandirIterator) :
    NextOutcome × ScandirIterator :=
  if it.exhausted then
    (.stop, it)
  else
    match it.entries with
    | e :: rest =>
      match e with
      | .ok e =>
        (.entry { file_name := e.file_name, entry_path := e.entry_path,
                  mode := it.mode },
         { it with entries := rest })
      | .error err => (.err err, { it with entries := rest })
    | [] => (.stop, { it with exhausted := true })

/-- `scandir` (os.rs lines 793-808): open the native stream on the
argument path and construct an iterator with `exhausted := false` and the
argument path's mode.  `fs_read_dir` is the native `fs::read_dir`
oracle. -/
def scandir (fs_read_dir : OsPath → Except ErrKind (List (Except ErrKind RawEntry)))
    (path : PyPathLike) : Except ErrKind ScandirIterator :=
  match fs_read_dir path.path with
  | .error e => .error e
  | .ok entries => .ok { entries := entries, exhausted := false, mode := path.mode }

/-! ## StatResult and stat/lstat (os.rs lines 810-1016) -/

/-- The native `libc::stat` record, restricted to the fields
`StatResult::from_stat` reads.  On unix/windows the three timestamps are
the `(st_*time, st_*time_nsec)` field pairs (the wasi branch reads the
same data from `st_*tim.tv_sec/tv_nsec`). -/
structure StatStruct where
  st_mode : Int
  st_ino : Int
  st_dev : Int
  st_nlink : Int
  st_uid : Int
  st_gid : Int
  st_size : Int
  st_atime : Int
  st_atime_nsec : Int
  st_mtime : Int
  st_mtime_nsec : Int
  st_ctime : Int
  st_ctime_nsec : Int
  deriving DecidableEq, Repr

/-- `StatResult` (os.rs lines 810-831).  The `f64` timestamp fields are
modelled as exact rationals: floating-point rounding is abstracted, the
arithmetic the code performs is kept. -/
structure StatResult where
  st_mode : Int
  st_ino : Int
  st_dev : Int
  st_nlink : Int
  st_uid : Int
  st_gid : Int
  st_size : Int
  st_atime_int : Int
  st_mtime_int : Int
  st_ctime_int : Int
  st_atime : Rat
  st_mtime : Rat
  st_ctime : Rat
  st_atime_ns : Int
  st_mtime_ns : Int
  st_ctime_ns : Int
  deriving DecidableEq, Repr

/-- `NANOS_PER_SEC` (os.rs line 850). -/
def NANOS_PER_SEC : Nat := 1000000000

/-- The `to_f64` closure of `StatResult::from_stat` (os.rs line 851):
`(s as f64) + (ns as f64) / (NANOS_PER_SEC as f64)`, in exact rational
arithmetic. -/
def to_f64 (p : Int × Int) : Rat :=
  (p.1 : Rat) + (p.2 : Rat) / (NANOS_PER_SEC : Rat)

/-- The `to_ns` closure of `StatResult::from_stat` (os.rs line 852):
`s as i128 * NANOS_PER_SEC as i128 + ns as i128`. -/
def to_ns (p : Int × Int) : Int :=
  p.1 * (NANOS_PER_SEC : Int) + p.2

/-- `StatResult::from_stat` (os.rs lines 835-871): the three `(sec, nsec)`
pairs are extracted from the native struct and the same two conversions
are applied to each. -/
def StatResult.from_stat (stat : StatStruct) : StatResult :=
  let atime := (stat.st_atime, stat.st_atime_nsec)
  let mtime := (stat.st_mtime, stat.st_mtime_nsec)
  let ctime := (stat.st_ctime, stat.st_ctime_nsec)
  { st_mode := stat.st_mode
    st_ino := stat.st_ino
    st_dev := stat.st_dev
    st_nlink := stat.st_nlink
    st_uid := stat.st_uid
    st_gid := stat.st_gid
    st_size := stat.st_size
    st_atime_int := atime.1
    st_mtime_int := mtime.1
    st_ctime_int := ctime.1
    st_atime := to_f64 atime
    st_mtime := to_f64 mtime
    st_ctime := to_f64 ctime
    st_atime_ns := to_ns atime
    st_mtime_ns := to_ns mtime
    st_ctime_ns := to_ns ctime }

/-- `libc::AT_SYMLINK_NOFOLLOW` (Linux value). -/
def AT_SYMLINK_NOFOLLOW : Int := 0x100

/-- The `file` argument of `stat`/`lstat`: `Either<PyPathLike, i32>`. -/
inductive PathOrFd where
  | path (p : PyPathLike)
  | fd (n : Int)
  deriving DecidableEq, Repr

/-- Native stat-family syscall oracles: `fstatat(dir_fd, path, flags)`,
`stat(path)` and `fstat(fd)`. -/
structure StatSyscalls where
  fstatat : Int → OsPath → Int → Except ErrKind StatStruct
  stat_sys : OsPath → Except ErrKind StatStruct
  fstat_sys : Int → Except ErrKind StatStruct

/-- `stat_inner` (os.rs lines 939-993), unix branch: a path containing an
embedded NUL makes `CString::new` fail and returns `Ok(None)`; otherwise
`fstatat` is used when a no-follow flag or a non-default `dir_fd` is
present, plain `stat` otherwise; an fd argument uses `fstat`. -/
def stat_inner (w : StatSyscalls) (file : PathOrFd) (dir_fd : Int)
    (follow_symlinks : Bool) : Except ErrKind (Option StatStruct) :=
  match file with
  | .path path =>
    if path.path.contains 0 then .ok none
    else
      let flags : Option Int :=
        if follow_symlinks then none else some AT_SYMLINK_NOFOLLOW
      if flags.isSome ∨ dir_fd ≠ DEFAULT_DIR_FD then
        (w.fstatat dir_fd path.path (flags.getD 0)).map some
      else
        (w.stat_sys path.path).map some
  | .fd n => (w.fstat_sys n).map some

/-- `stat` (os.rs lines 995-1007): run `stat_inner`, turn `Ok(None)` into
the invalid-argument (embedded null character) error, and convert the
native struct with `StatResult::from_stat`. -/
def stat (w : StatSyscalls) (file : PathOrFd) (dir_fd : Int)
    (follow_symlinks : Bool) : Except ErrKind StatResult :=
  match stat_inner w file dir_fd follow_symlinks with
  | .error e => .error e
  | .ok none => .error .valueError
  | .ok (some s) => .ok (StatResult.from_stat s)

/-- `lstat` (os.rs lines 1009-1016): the body is exactly
`stat(file, dir_fd, FollowSymlinks(false), vm)`; `lstat` takes no
follow-symlinks argument of its own. -/
def lstat (w : StatSyscalls) (file : PathOrFd) (dir_fd : Int) :
    Except ErrKind StatResult :=
  stat w file dir_fd false

/-! ## Permission evaluation and access (os.rs lines 1534-1637) -/

/-- `Permissions` (os.rs lines 1538-1542). -/
structure Permissions where
  is_readable : Bool
  is_writable : Bool
  is_executable : Bool
  deriving DecidableEq, Repr

/-- `get_permissions` (os.rs lines 1544-1550). -/
def get_permissions (mode : Nat) : Permissions :=
  { is_readable := mode &&& 4 != 0
    is_writable := mode &&& 2 != 0
    is_executable := mode &&& 1 != 0 }

/-- `get_right_permission` (os.rs lines 1552-1576).  The caller's identity
(`getuid`) and group list (`getgroups`, which can fail) are passed as
oracles. -/
def get_right_permission (mode : Nat) (file_owner file_group : Nat)
    (user_id : Nat) (groups_ids : Except ErrKind (List Nat)) :
    Except ErrKind Permissions :=
  let owner_mode := (mode &&& 0o700) >>> 6
  let owner_permissions := get_permissions owner_mode
  let group_mode := (mode &&& 0o070) >>> 3
  let group_permissions := get_permissions group_mode
  let others_mode := mode &&& 0o007
  let others_permissions := get_permissions others_mode
  match groups_ids with
  | .error e => .error e
  | .ok gs =>
    if file_owner = user_id then .ok owner_permissions
    else if gs.contains file_group then .ok group_permissions
    else .ok others_permissions

/-- The file metadata `access` reads: owner uid, group gid, mode bits. -/
structure FileMeta where
  uid : Nat
  gid : Nat
  mode : Nat
  deriving DecidableEq, Repr

/-- `posix::access` (os.rs lines 1605-1637).  `metadata` is the
`fs::metadata(&path)` oracle, `user_id`/`groups_ids` the identity oracles;
`mode` is the `u8` request mask.  `AccessFlags::from_bits` fails for any
bit outside `F_OK|R_OK|W_OK|X_OK = 0b111`; `flags == F_OK` iff the mask is
0, in which case the result is `metadata.is_ok()` with no permission-bit
arithmetic. -/
def access (metadata : Except ErrKind FileMeta) (user_id : Nat)
    (groups_ids : Except ErrKind (List Nat)) (mode : Nat) :
    Except ErrKind Bool :=
  if 8 ≤ mode then .error .valueError
  else if mode = 0 then
    .ok (match metadata with | .ok _ => true | .error _ => false)
  else
    match metadata with
    | .error e => .error e
    | .ok m =>
      match get_right_permission m.mode m.uid m.gid user_id groups_ids with
      | .error e => .error e
      | .ok perm =>
        let r_ok := decide (mode &&& 4 = 0) || perm.is_readable
        let w_ok := decide (mode &&& 2 = 0) || perm.is_writable
        let x_ok := decide (mode &&& 1 = 0) || perm.is_executable
        .ok (r_ok && w_ok && x_ok)

/-! ## utime (os.rs lines 1131-1206) -/

/-- A `std::time::Duration`: whole seconds (`u64`) and a sub-second
nanosecond part (`u32`). -/
structure RsDuration where
  secs : Nat
  nanos : Nat
  deriving DecidableEq, Repr

/-- The `ns_to_dur` closure of `utime` (os.rs lines 1174-1190): Python
`divmod(obj, 1_000_000_000)` (floor division, remainder with the
divisor's sign) followed by `Duration::new(secs, ns)`, whose `u64`/`u32`
conversions fail with an overflow error for a negative quotient. -/
def ns_to_dur (i : Int) : Except ErrKind RsDuration :=
  let secs := i.ediv 1000000000
  let ns := i.emod 1000000000
  if secs < 0 ∨ (2 : Int) ^ 64 ≤ secs then .error .overflowError
  else .ok { secs := secs.toNat, nanos := ns.toNat }

/-- `utime` (os.rs lines 1147-1206), the `(times, ns)` analysis producing
the `(acc, modif)` pair handed to `utime_impl` (so an `.error` result
means no native call is made).  The entries of the `times` tuple are
given as the results of `Duration::try_from_object`; the entries of the
`ns` tuple as Python ints; `now` is `SystemTime::now()` since the epoch.
A tuple of length ≠ 2 fails `parse_tup` and raises a type error. -/
def utime (times : Option (List (Except ErrKind RsDuration)))
    (ns : Option (List Int)) (now : RsDuration) :
    Except ErrKind (RsDuration × RsDuration) :=
  match times, ns with
  | some t, none =>
    match t with
    | [a, m] => do
      let da ← a
      let dm ← m
      pure (da, dm)
    | _ => .error .typeError
  | none, some l =>
    match l with
    | [a, m] => do
      let da ← ns_to_dur a
      let dm ← ns_to_dur m
      pure (da, dm)
    | _ => .error .typeError
  | none, none => .ok (now, now)
  | some _, some _ => .error .valueError

/-! ## chown / lchown / fchown (os.rs lines 1699-1768) -/

/-- The `path` argument of `chown`: `Either<PyPathLike, i64>`. -/
inductive ChownTarget where
  | path (p : OsPath)
  | fd (n : Int)
  deriving DecidableEq, Repr

/-- The argument record of the one native `fchownat` call `chown` ends
in: the optional dir-fd, the resolved target path, the optional owner and
group ids (where `none` means "leave unchanged"), and the
follow-symlinks flag. -/
structure ChownCall where
  dir_fd_opt : Option Int
  target : OsPath
  uid_arg : Option Nat
  gid_arg : Option Nat
  follow : Bool
  deriving DecidableEq, Repr

/-- `posix::chown` (os.rs lines 1700-1742), up to (and excluding) the
native `fchownat` call, whose argument record is returned; an `.error`
result is raised before any native chown call.  `uid >= 0` is wrapped
(`as u32`) and set; `uid == -1` becomes `None` (leave unchanged); any
other (i.e. `< -1`) id fails with `vm.new_os_error` — the generic
OS-error kind.  The gid is analysed the same way.  `resolve_fd` is the
`/proc/self/fd/{fd}` readlink oracle used for an fd target, whose failure
is mapped to the generic OS-error kind. -/
def chown (resolve_fd : Int → Except ErrKind OsPath) (path : ChownTarget)
    (uid gid : Int) (dir_fd : Int) (follow_symlinks : Bool) :
    Except ErrKind ChownCall := do
  let u ←
    if 0 ≤ uid then pure (some (uid % 2 ^ 32).toNat)
    else if uid = -1 then pure (none : Option Nat)
    else throw ErrKind.osError
  let g ←
    if 0 ≤ gid then pure (some (gid % 2 ^ 32).toNat)
    else if gid = -1 then pure (none : Option Nat)
    else throw ErrKind.osError
  let dfd := if dir_fd = DEFAULT_DIR_FD then none else some dir_fd
  match path with
  | .path p =>
    pure { dir_fd_opt := dfd, target := p, uid_arg := u, gid_arg := g,
           follow := follow_symlinks }
  | .fd n =>
    match resolve_fd n with
    | .error _ => throw ErrKind.osError
    | .ok p =>
      pure { dir_fd_opt := dfd, target := p, uid_arg := u, gid_arg := g,
             follow := follow_symlinks }

/-- `posix::lchown` (os.rs lines 1745-1755): `chown` on the path with the
default dir-fd and `FollowSymlinks(false)`. -/
def lchown (resolve_fd : Int → Except ErrKind OsPath) (path : OsPath)
    (uid gid : Int) : Except ErrKind ChownCall :=
  chown resolve_fd (.path path) uid gid DEFAULT_DIR_FD false

/-- `posix::fchown` (os.rs lines 1758-1768): `chown` on the fd with the
default dir-fd and `FollowSymlinks(true)`. -/
def fchown (resolve_fd : Int → Except ErrKind OsPath) (fd : Int)
    (uid gid : Int) : Except ErrKind ChownCall :=
  chown resolve_fd (.fd fd) uid gid DEFAULT_DIR_FD true

/-! ## pipe / dup / dup2 (os.rs lines 1826-1839, 2507-2536) -/

/-- Native fd-syscall oracles: `nix::unistd::pipe`, `dup`, `dup2`, and
the outcome of `raw_set_inheritable(fd, false)` (`none` = success). -/
structure FdSyscalls where
  pipe_res : Except ErrKind (Int × Int)
  dup_res : Int → Except ErrKind Int
  dup2_res : Int → Int → Except ErrKind Int
  set_inh_err : Int → Option ErrKind

/-- Observable outcome of one fd-creating call: the returned value, the
fds closed during the call (rollback), and the fds on which the
call successfully cleared the inheritable flag
(`raw_set_inheritable(fd, false)`). -/
structure PipeOutcome where
  result : Except ErrKind (Int × Int)
  closed : List Int
  cleared : List Int
  deriving DecidableEq, Repr

/-- Same for the single-fd calls `dup` and `dup2`. -/
structure FdCallOutcome where
  result : Except ErrKind Int
  closed : List Int
  cleared : List Int
  deriving DecidableEq, Repr

/-- `posix::pipe` (os.rs lines 1826-1839): create the pair, then
`set_inheritable(rfd, false).and_then(set_inheritable(wfd, false))`; on
failure of either step close both fds and surface the error. -/
def pipe (w : FdSyscalls) : PipeOutcome :=
  match w.pipe_res with
  | .error e => { result := .error e, closed := [], cleared := [] }
  | .ok (rfd, wfd) =>
    match w.set_inh_err rfd with
    | some e => { result := .error e, closed := [rfd, wfd], cleared := [] }
    | none =>
      match w.set_inh_err wfd with
      | some e =>
        { result := .error e, closed := [rfd, wfd], cleared := [rfd] }
      | none =>
        { result := .ok (rfd, wfd), closed := [], cleared := [rfd, wfd] }

/-- `posix::dup` (os.rs lines 2507-2514): duplicate, then
`raw_set_inheritable(fd, false)`; on failure close the new fd and surface
the error. -/
def dup (w : FdSyscalls) (fd : Int) : FdCallOutcome :=
  match w.dup_res fd with
  | .error e => { result := .error e, closed := [], cleared := [] }
  | .ok nfd =>
    match w.set_inh_err nfd with
    | some e => { result := .error e, closed := [nfd], cleared := [] }
    | none => { result := .ok nfd, closed := [], cleared := [nfd] }

/-- The default of `Dup2Args.inheritable` (os.rs line 2522):
`#[pyarg(any, default = "true")]`. -/
def dup2_default_inheritable : Bool := true

/-- `posix::dup2` (os.rs lines 2526-2536): duplicate onto `fd2`; only
when the caller passed `inheritable = false` is
`raw_set_inheritable(fd, false)` run (closing the new fd and surfacing
the error on failure). -/
def dup2 (w : FdSyscalls) (fd fd2 : Int) (inheritable : Bool) :
    FdCallOutcome :=
  match w.dup2_res fd fd2 with
  | .error e => { result := .error e, closed := [], cleared := [] }
  | .ok nfd =>
    if inheritable then { result := .ok nfd, closed := [], cleared := [] }
    else
      match w.set_inh_err nfd with
      | some e => { result := .error e, closed := [nfd], cleared := [] }
      | none => { result := .ok nfd, closed := [], cleared := [nfd] }

/-! ## Statement helpers (spec-side formulations used in theorems) -/

/-- The raw path bytes carried by a path-shaped result. -/
def PyPathResult.raw : PyPathResult → OsPath
  | .str p => p
  | .bytes p => p

/-- Spec-side formulation of the permission triple `access` must consult
(§4.6 of the spec): the owner triple when the caller's uid equals the
file owner, else the group triple when the caller's group set contains
the file's group, else the other triple — as the three-bit r/w/x value. -/
def claimSelectedTriple (m : FileMeta) (user_id : Nat) (gs : List Nat) :
    Nat :=
  if m.uid = user_id then (m.mode >>> 6) &&& 7
  else if m.gid ∈ gs then (m.mode >>> 3) &&& 7
  else m.mode &&& 7

/-- A concrete syscall world in which every native call succeeds, used
for witnesses and counterexamples. -/
def fdWorld0 : FdSyscalls :=
  { pipe_res := .ok (3, 4)
    dup_res := fun _ => .ok 5
    dup2_res := fun _ fd2 => .ok fd2
    set_inh_err := fun _ => none }

/-- A concrete `/proc/self/fd` resolution oracle that always succeeds. -/
def resolveFd0 : Int → Except ErrKind OsPath := fun _ => .ok [0x66]

/-! ## Shared helper lemmas -/

@[simp]
theorem except_throw_eq {ε α : Type} (e : ε) :
    (throw e : Except ε α) = .error e := rfl

@[simp]
theorem except_pure_eq {ε α : Type} (a : α) :
    (pure a : Except ε α) = .ok a := rfl

@[simp]
theorem except_error_bind {ε α β : Type} (e : ε) (f : α → Except ε β) :
    (Except.error e : Except ε α) >>= f = .error e := rfl

@[simp]
theorem except_ok_bind {ε α β : Type} (a : α) (f : α → Except ε β) :
    (Except.ok a : Except ε α) >>= f = f a := rfl

theorem testBit_448 (i : Nat) : Nat.testBit 448 (6 + i) = Nat.testBit 7 i := by
  match i with
  | 0 => decide
  | 1 => decide
  | 2 => decide
  | (n + 3) =>
    rw [Nat.testBit_lt_two_pow, Nat.testBit_lt_two_pow]
    · exact lt_of_lt_of_le (by norm_num : (7 : Nat) < 2 ^ 3)
        (Nat.pow_le_pow_right (by norm_num) (by omega))
    · exact lt_of_lt_of_le (by norm_num : (448 : Nat) < 2 ^ 9)
        (Nat.pow_le_pow_right (by norm_num) (by omega))

theorem testBit_56 (i : Nat) : Nat.testBit 56 (3 + i) = Nat.testBit 7 i := by
  match i with
  | 0 => decide
  | 1 => decide
  | 2 => decide
  | (n + 3) =>
    rw [Nat.testBit_lt_two_pow, Nat.testBit_lt_two_pow]
    · exact lt_of_lt_of_le (by norm_num : (7 : Nat) < 2 ^ 3)
        (Nat.pow_le_pow_right (by norm_num) (by omega))
    · exact lt_of_lt_of_le (by norm_num : (56 : Nat) < 2 ^ 6)
        (Nat.pow_le_pow_right (by norm_num) (by omega))

theorem and_448_shiftRight (a : Nat) : (a &&& 448) >>> 6 = (a >>> 6) &&& 7 := by
  apply Nat.eq_of_testBit_eq
  intro i
  simp [Nat.testBit_shiftRight, Nat.testBit_and, testBit_448]

theorem and_56_shiftRight (a : Nat) : (a &&& 56) >>> 3 = (a >>> 3) &&& 7 := by
  apply Nat.eq_of_testBit_eq
  intro i
  simp [Nat.testBit_shiftRight, Nat.testBit_and, testBit_56]

/-- The conjunction of the three per-bit checks of `access` equals the
"every requested bit is present in the selected triple" test, for a
request mask and a triple both below 8. -/
theorem perm_check_eq : ∀ req < 8, ∀ t < 8,
    ((decide (req &&& 4 = 0) || (get_permissions t).is_readable) &&
      (decide (req &&& 2 = 0) || (get_permissions t).is_writable) &&
      (decide (req &&& 1 = 0) || (get_permissions t).is_executable)) =
    decide (req &&& t = req) := by decide

/-- `process_path` fixes the result's encoding tag to the mode. -/
theorem process_path_tag (mode : OutputMode) (p : OsPath) (r : PyPathResult)
    (h : mode.process_path p = .ok r) : r.tag = mode := by
  cases mode with
  | string =>
    simp only [OutputMode.process_path] at h
    by_cases hv : utf8Valid p = true
    · rw [if_pos hv] at h
      cases h
      rfl
    · rw [if_neg hv] at h
      cases h
  | bytes =>
    cases h
    rfl

/-- Every element of a successful `listdirPath` result carries the
argument path's mode. -/
theorem listdirPath_tags (entries : List (Except ErrKind OsPath))
    (p : PyPathLike) (l : List PyPathResult)
    (h : listdirPath entries p = .ok l) : ∀ x ∈ l, x.tag = p.mode := by
  induction entries generalizing l with
  | nil =>
    unfold listdirPath at h
    cases h
    intro x hx
    cases hx
  | cons e rest ih =>
    cases e with
    | error err =>
      simp only [listdirPath] at h
      cases h
    | ok fname =>
      simp only [listdirPath] at h
      cases hr : p.mode.process_path fname with
      | error err => rw [hr] at h; cases h
      | ok r =>
        rw [hr] at h
        cases hl : listdirPath rest p with
        | error err =>
          rw [hl] at h
          cases h
        | ok l2 =>
          rw [hl] at h
          simp only [Bind.bind, Except.bind, Pure.pure, Except.pure,
            Except.ok.injEq] at h
          subst h
          intro x hx
          rcases List.mem_cons.mp hx with hx1 | hx2
          · subst hx1; exact process_path_tag _ _ _ hr
          · exact ih l2 hl x hx2

/-- `close` composed any number of times is one `close`. -/
theorem close_iterate (it : ScandirIterator) (n : Nat) :
    ScandirIterator.close^[n] it.close = it.close := by
  induction n with
  | zero => rfl
  | succ k ih =>
    rw [Function.iterate_succ_apply]
    exact ih

/-! ## Claim theorems -/

/-- C10: `lstat(file, dir_fd)` returns exactly the same result (or the
same error) as `stat(file, dir_fd, follow_symlinks = false)`, for every
file argument, dir-fd and syscall behaviour: `lstat` is definitionally
`stat` with the follow-symlinks flag forced off (and, in the embedding as
in the source, takes no follow-symlinks argument of its own). -/
theorem lstat_refines_stat_nofollow (w : StatSyscalls) (file : PathOrFd)
    (dir_fd : Int) : lstat w file dir_fd = stat w file dir_fd false := rfl

/-- C4: every stat result built from native seconds `s` and nanosecond
remainder `n` satisfies `ns_field = s * 1_000_000_000 + n` exactly for
each of the three timestamps, the integer-seconds field is `s`, and the
fractional field equals `s + n / 1e9` (floating-point rounding abstracted
as exact rational arithmetic); the one conversion pair `to_f64`/`to_ns`
is applied to all three timestamps alike. -/
theorem stat_time_conversion (st : StatStruct) :
    (StatResult.from_stat st).st_atime_ns =
        st.st_atime * 1000000000 + st.st_atime_nsec ∧
    (StatResult.from_stat st).st_mtime_ns =
        st.st_mtime * 1000000000 + st.st_mtime_nsec ∧
    (StatResult.from_stat st).st_ctime_ns =
        st.st_ctime * 1000000000 + st.st_ctime_nsec ∧
    (StatResult.from_stat st).st_atime_int = st.st_atime ∧
    (StatResult.from_stat st).st_mtime_int = st.st_mtime ∧
    (StatResult.from_stat st).st_ctime_int = st.st_ctime ∧
    (StatResult.from_stat st).st_atime =
        (st.st_atime : Rat) + (st.st_atime_nsec : Rat) / 1000000000 ∧
    (StatResult.from_stat st).st_mtime =
        (st.st_mtime : Rat) + (st.st_mtime_nsec : Rat) / 1000000000 ∧
    (StatResult.from_stat st).st_ctime =
        (st.st_ctime : Rat) + (st.st_ctime_nsec : Rat) / 1000000000 := by
  refine ⟨rfl, rfl, rfl, rfl, rfl, rfl, ?_, ?_, ?_⟩ <;>
    simp [StatResult.from_stat, to_f64, NANOS_PER_SEC]

/-- C5: once the `exhausted` flag of a `ScandirIterator` is set — by
`close()` (hence also by `__exit__`, which calls `close`), or by the
stream reaching its natural end — every subsequent `next` returns the
stop signal and leaves the state (in particular the underlying cursor)
untouched; and `close` is idempotent: any positive number of `close`
calls, from any state, equals one `close` and leaves the iterator
exhausted. -/
theorem scandir_exhaustion (it : ScandirIterator) (n : Nat) :
    (it.exhausted = true → it.next = (.stop, it)) ∧
    ScandirIterator.close^[n + 1] it = it.close ∧
    (ScandirIterator.close^[n + 1] it).exhausted = true ∧
    (it.close).next = (.stop, it.close) ∧
    (it.entries = [] → it.next = (.stop, it.close)) := by
  obtain ⟨es, ex, m⟩ := it
  refine ⟨?_, ?_, ?_, ?_, ?_⟩
  · intro h
    cases h
    rfl
  · rw [Function.iterate_succ_apply]
    exact close_iterate ⟨es, ex, m⟩ n
  · rw [Function.iterate_succ_apply]
    rw [close_iterate ⟨es, ex, m⟩ n]
    rfl
  · rfl
  · intro h
    cases h
    cases ex <;> rfl

/-- C5 witness: a closed iterator and a naturally-ended iterator both
answer `next` with the stop signal. -/
theorem scandir_exhaustion_witness :
    ScandirIterator.next ⟨[], true, OutputMode.string⟩ =
      (NextOutcome.stop, ⟨[], true, OutputMode.string⟩) ∧
    ScandirIterator.next ⟨[], false, OutputMode.string⟩ =
      (NextOutcome.stop, ScandirIterator.close ⟨[], false, OutputMode.string⟩) :=
  ⟨(scandir_exhaustion ⟨[], true, OutputMode.string⟩ 0).1 rfl,
   (scandir_exhaustion ⟨[], false, OutputMode.string⟩ 0).2.2.2.2 rfl⟩

/-- C6: `utime` with both a `times` tuple and an `ns` tuple fails with
the invalid-argument kind (before any native call: the error is produced
by the argument analysis that feeds `utime_impl`); with neither, both
timestamps are the current moment; with exactly one, that pair is used —
the `times` pair is passed through, and the `ns` result is determined by
the `ns` pair alone (each component via `divmod` by 10⁹),
independent of the current time. -/
theorem utime_time_spec (t : List (Except ErrKind RsDuration))
    (l : List Int) (d1 d2 : RsDuration) (x y : Int) (now now2 : RsDuration) :
    utime (some t) (some l) now = .error .valueError ∧
    utime none none now = .ok (now, now) ∧
    utime (some [.ok d1, .ok d2]) none now = .ok (d1, d2) ∧
    utime none (some [x, y]) now = utime none (some [x, y]) now2 ∧
    (∀ r, utime none (some [x, y]) now = .ok r →
      ns_to_dur x = .ok r.1 ∧ ns_to_dur y = .ok r.2) := by
  refine ⟨rfl, rfl, rfl, rfl, ?_⟩
  intro r h
  have h2 : (do
      let da ← ns_to_dur x
      let dm ← ns_to_dur y
      pure (da, dm) : Except ErrKind (RsDuration × RsDuration)) = .ok r := h
  cases hx : ns_to_dur x with
  | error e =>
    rw [hx] at h2
    simp [Bind.bind, Except.bind] at h2
  | ok dx =>
    rw [hx] at h2
    cases hy : ns_to_dur y with
    | error e =>
      rw [hy] at h2
      simp [Bind.bind, Except.bind] at h2
    | ok dy =>
      rw [hy] at h2
      simp only [Bind.bind, Except.bind, Pure.pure, Except.pure,
        Except.ok.injEq] at h2
      subst h2
      exact ⟨rfl, rfl⟩

/-- C6 witness: at a concrete ns pair `(1500000002, 7)`, the pair used is
`((1 s, 500000002 ns), (0 s, 7 ns))`. -/
theorem utime_time_spec_witness :
    ns_to_dur 1500000002 = .ok ⟨1, 500000002⟩ ∧ ns_to_dur 7 = .ok ⟨0, 7⟩ :=
  (utime_time_spec [] [] ⟨0, 0⟩ ⟨0, 0⟩ 1500000002 7 ⟨9, 9⟩ ⟨9, 9⟩).2.2.2.2
    (⟨1, 500000002⟩, ⟨0, 7⟩) (by decide)

/-- C1 counterexample: on a build without the dir-fd capability, the
non-default value 2³¹ does not fail with the operation-unsupported kind —
`int::try_to_primitive::<i32>` rejects it first with an overflow error
(and the same value is not accepted on a capability build either). -/
theorem dirfd_gate_counterexample :
    dirFdFromArgs false (.int 2147483648) = .error .overflowError ∧
    dirFdFromArgs true (.int 2147483648) = .error .overflowError ∧
    ErrKind.overflowError ≠ ErrKind.notImplemented := by decide

/-- C1 (amended): for dir_fd values within the `i32` range, a build
without the capability rejects every non-default value with the
operation-unsupported kind, while the default sentinel, `None`, or an
omitted argument is always accepted; a build with the capability accepts
every in-range integer at argument-parsing time.  Out-of-`i32`-range
integers fail at integer conversion (overflow), on either build, before
the capability check. -/
theorem dirfd_gate (i : Int) :
    dirFdFromArgs false .absent = .ok DEFAULT_DIR_FD ∧
    dirFdFromArgs false .pyNone = .ok DEFAULT_DIR_FD ∧
    dirFdFromArgs false (.int DEFAULT_DIR_FD) = .ok DEFAULT_DIR_FD ∧
    (i32Min ≤ i → i ≤ i32Max → i ≠ DEFAULT_DIR_FD →
      dirFdFromArgs false (.int i) = .error .notImplemented) ∧
    (i32Min ≤ i → i ≤ i32Max → dirFdFromArgs true (.int i) = .ok i) ∧
    dirFdFromArgs true .absent = .ok DEFAULT_DIR_FD ∧
    dirFdFromArgs true .pyNone = .ok DEFAULT_DIR_FD ∧
    ((i < i32Min ∨ i32Max < i) →
      dirFdFromArgs false (.int i) = .error .overflowError ∧
      dirFdFromArgs true (.int i) = .error .overflowError) := by
  refine ⟨by decide, by decide, by decide, ?_, ?_, by decide, by decide, ?_⟩
  · intro h1 h2 h3
    have hr : ¬(i < i32Min ∨ i32Max < i) := by
      simp only [i32Min, i32Max] at *
      omega
    simp [dirFdFromArgs, hr, h3]
  · intro h1 h2
    have hr : ¬(i < i32Min ∨ i32Max < i) := by
      simp only [i32Min, i32Max] at *
      omega
    simp [dirFdFromArgs, hr]
  · intro h
    refine ⟨?_, ?_⟩ <;> (simp only [dirFdFromArgs]; rw [if_pos h]; simp)

/-- C1 witness: the amended theorem applied at the in-range non-default
value 5 and the out-of-range value 2³¹. -/
theorem dirfd_gate_witness :
    dirFdFromArgs false (.int 5) = .error .notImplemented ∧
    dirFdFromArgs true (.int 5) = .ok 5 ∧
    dirFdFromArgs true (.int 2147483648) = .error .overflowError :=
  ⟨(dirfd_gate 5).2.2.2.1 (by decide) (by decide) (by decide),
   (dirfd_gate 5).2.2.2.2.1 (by decide) (by decide),
   ((dirfd_gate 2147483648).2.2.2.2.2.2.2 (by decide)).2⟩

/-- C7 counterexample: `chown` with owner id −2 fails with the generic
OS-error kind (`vm.new_os_error("Specified uid is not valid.")`), not
with the invalid-argument kind the claim names. -/
theorem chown_counterexample :
    chown resolveFd0 (.path [0x61]) (-2) 0 DEFAULT_DIR_FD true =
      .error .osError ∧
    ErrKind.osError ≠ ErrKind.valueError := by decide

/-- C7 (amended): for `chown`/`fchown`/`lchown`, id −1 leaves the
corresponding id unchanged (it is passed to the native call as "not
set"), and any id strictly below −1 fails — with the generic OS-error
kind, not invalid-argument — before any native chown call is issued
(the embedded function returns the argument record of the native call,
so an error means no native call); `lchown` and `fchown` are `chown` with
fixed follow-symlinks values. -/
theorem chown_id_validation (resolve : Int → Except ErrKind OsPath)
    (tgt : ChownTarget) (p : OsPath) (uid gid dfd fd : Int) (fl : Bool) :
    (uid < -1 → chown resolve tgt uid gid dfd fl = .error .osError) ∧
    (-1 ≤ uid → gid < -1 → chown resolve tgt uid gid dfd fl = .error .osError) ∧
    (∀ c, chown resolve tgt (-1) gid dfd fl = .ok c → c.uid_arg = none) ∧
    (∀ c, chown resolve tgt uid (-1) dfd fl = .ok c → c.gid_arg = none) ∧
    lchown resolve p uid gid = chown resolve (.path p) uid gid DEFAULT_DIR_FD false ∧
    fchown resolve fd uid gid = chown resolve (.fd fd) uid gid DEFAULT_DIR_FD true := by
  refine ⟨?_, ?_, ?_, ?_, rfl, rfl⟩
  · intro h
    have h0 : ¬(0 ≤ uid) := by omega
    have h1 : uid ≠ -1 := by omega
    simp [chown, h0, h1]
  · intro hu hg
    have g0 : ¬(0 ≤ gid) := by omega
    have g1 : gid ≠ -1 := by omega
    rcases (by omega : 0 ≤ uid ∨ uid = -1) with h | h
    · simp [chown, h, g0, g1]
    · subst h
      norm_num [chown, g0, g1]
  · intro c h
    unfold chown at h
    norm_num at h
    repeat' split at h
    all_goals first | (cases h; rfl) | simp_all
  · intro c h
    unfold chown at h
    norm_num at h
    repeat' split at h
    all_goals first | (cases h; rfl) | simp_all

/-- C7 witness: the amended theorem applied at concrete ids — uid −2
fails with the generic OS error; uid −1 / gid −1 are passed as "not
set". -/
theorem chown_id_validation_witness :
    chown resolveFd0 (.path [0x61]) (-2) 0 0 true = .error .osError ∧
    (ChownCall.uid_arg
      { dir_fd_opt := some 0, target := [0x61], uid_arg := none,
        gid_arg := some 0, follow := true } = none) := by
  constructor
  · exact (chown_id_validation resolveFd0 (.path [0x61]) [0x61] (-2) 0 0 0
      true).1 (by decide)
  · exact (chown_id_validation resolveFd0 (.path [0x61]) [0x61] 7 0 0 0
      true).2.2.1 _ (by decide)

/-- C8 counterexample: `dup2` called with the `inheritable` argument
defaulted succeeds and performs no clear-inheritable action on the
returned descriptor — because the default is `inheritable = true`
(os.rs line 2522) — so the returned descriptor does not default to
non-inheritable-by-child status. -/
theorem dup_inheritance_counterexample :
    dup2 fdWorld0 3 4 dup2_default_inheritable =
      { result := .ok 4, closed := [], cleared := [] } ∧
    dup2_default_inheritable = true ∧
    dup2 fdWorld0 3 4 false =
      { result := .ok 4, closed := [], cleared := [4] } := by
  refine ⟨rfl, rfl, rfl⟩

/-- C8 (amended): `pipe` and `dup` clear the inheritable flag on every
descriptor they return; `dup2` clears it only when the caller passes
`inheritable = false` — its default is `inheritable = true`, so a
default `dup2` descriptor stays inheritable; in all three calls, when
the clear-inheritable step fails, every descriptor created within that
same call is closed before the error is surfaced. -/
theorem fd_inheritance_and_rollback (w : FdSyscalls)
    (rfd wfd fd fd2 nfd : Int) :
    ((pipe w).result = .ok (rfd, wfd) → (pipe w).cleared = [rfd, wfd]) ∧
    (w.pipe_res = .ok (rfd, wfd) → (∀ e, (pipe w).result = .error e →
      (pipe w).closed = [rfd, wfd])) ∧
    ((dup w fd).result = .ok nfd → (dup w fd).cleared = [nfd]) ∧
    (w.dup_res fd = .ok nfd → (∀ e, (dup w fd).result = .error e →
      (dup w fd).closed = [nfd])) ∧
    ((dup2 w fd fd2 false).result = .ok nfd →
      (dup2 w fd fd2 false).cleared = [nfd]) ∧
    (w.dup2_res fd fd2 = .ok nfd → (∀ e, (dup2 w fd fd2 false).result = .error e →
      (dup2 w fd fd2 false).closed = [nfd])) ∧
    (dup2 w fd fd2 true).cleared = [] ∧
    dup2_default_inheritable = true := by
  refine ⟨?_, ?_, ?_, ?_, ?_, ?_, ?_, rfl⟩
  · intro h
    cases hp : w.pipe_res with
    | error e => simp [pipe, hp] at h
    | ok p =>
      obtain ⟨r0, w0⟩ := p
      cases hr : w.set_inh_err r0 with
      | some e => simp [pipe, hp, hr] at h
      | none =>
        cases hw : w.set_inh_err w0 with
        | some e => simp [pipe, hp, hr, hw] at h
        | none =>
          simp only [pipe, hp, hr, hw] at h ⊢
          cases h
          rfl
  · intro hp e h
    simp only [pipe, hp] at h ⊢
    cases hr : w.set_inh_err rfd with
    | some e2 => simp only [hr]
    | none =>
      simp only [hr] at h ⊢
      cases hw : w.set_inh_err wfd with
      | some e2 => simp only [hw]
      | none =>
        simp only [hw] at h
        cases h
  · intro h
    cases hd : w.dup_res fd with
    | error e => simp [dup, hd] at h
    | ok m =>
      cases hs : w.set_inh_err m with
      | some e => simp [dup, hd, hs] at h
      | none =>
        simp only [dup, hd, hs] at h ⊢
        cases h
        rfl
  · intro hd e h
    simp only [dup, hd] at h ⊢
    cases hs : w.set_inh_err nfd with
    | some e2 => simp only [hs]
    | none =>
      simp only [hs] at h
      cases h
  · intro h
    cases hd : w.dup2_res fd fd2 with
    | error e => simp [dup2, hd] at h
    | ok m =>
      cases hs : w.set_inh_err m with
      | some e => simp [dup2, hd, hs] at h
      | none =>
        simp only [dup2, hd, hs, Bool.false_eq_true, if_false, ite_false]
          at h ⊢
        cases h
        rfl
  · intro hd e h
    simp only [dup2, hd, Bool.false_eq_true, if_false, ite_false] at h ⊢
    cases hs : w.set_inh_err nfd with
    | some e2 => simp only [hs]
    | none =>
      simp only [hs] at h
      cases h
  · cases hd : w.dup2_res fd fd2 with
    | error e => simp [dup2, hd]
    | ok m => simp [dup2, hd]

/-- C8 witness: the amended theorem applied in the all-success world —
the pipe descriptors and the dup descriptor are cleared, and an
explicit `inheritable = false` dup2 clears its descriptor. -/
theorem fd_inheritance_and_rollback_witness :
    (pipe fdWorld0).cleared = [3, 4] ∧
    (dup fdWorld0 7).cleared = [5] ∧
    (dup2 fdWorld0 3 4 false).cleared = [4] :=
  ⟨(fd_inheritance_and_rollback fdWorld0 3 4 7 4 5).1 rfl,
   (fd_inheritance_and_rollback fdWorld0 3 4 7 4 5).2.2.1 rfl,
   (fd_inheritance_and_rollback fdWorld0 3 4 7 4 4).2.2.2.2.1 rfl⟩

/-- C9: a successful fd-based `listdir` never returns "." or ".." among
the entry names, whatever the underlying platform stream yields. -/
theorem listdir_fd_no_dot_entries (entries : List (Except ErrKind OsPath))
    (l : List PyPathResult) (h : listdirFd entries = .ok l) :
    ∀ x ∈ l, x.raw ≠ [0x2E] ∧ x.raw ≠ [0x2E, 0x2E] := by
  induction entries generalizing l with
  | nil =>
    cases h
    intro x hx
    cases hx
  | cons e rest ih =>
    cases e with
    | error err =>
      simp only [listdirFd] at h
      cases h
    | ok fname =>
      simp only [listdirFd] at h
      by_cases hdot : fname = [0x2E] ∨ fname = [0x2E, 0x2E]
      · rw [if_pos hdot] at h
        exact ih l h
      · rw [if_neg hdot] at h
        cases hr : OutputMode.string.process_path fname with
        | error err => rw [hr] at h; cases h
        | ok r =>
          have hraw : r.raw = fname := by
            simp only [OutputMode.process_path] at hr
            by_cases hv : utf8Valid fname = true
            · rw [if_pos hv] at hr
              cases hr
              rfl
            · rw [if_neg hv] at hr
              cases hr
          rw [hr] at h
          cases hl : listdirFd rest with
          | error err =>
            rw [hl] at h
            cases h
          | ok l2 =>
            rw [hl] at h
            simp only [Bind.bind, Except.bind, Pure.pure, Except.pure,
              Except.ok.injEq] at h
            subst h
            intro x hx
            rcases List.mem_cons.mp hx with hx1 | hx2
            · rw [hx1, hraw]
              push_neg at hdot
              exact hdot
            · exact ih l2 hl x hx2

/-- C9 witness: a stream yielding ".", ".." and "a" lists only "a". -/
theorem listdir_fd_no_dot_entries_witness :
    (PyPathResult.str [0x61]).raw ≠ [0x2E] ∧
    (PyPathResult.str [0x61]).raw ≠ [0x2E, 0x2E] :=
  listdir_fd_no_dot_entries [.ok [0x2E], .ok [0x2E, 0x2E], .ok [0x61]]
    [.str [0x61]] (by decide) (.str [0x61]) (by decide)

/-- C2: the encoding tag fixed when a path argument is converted
(`try_from_object`: bytes → Bytes, text → String, also through
`__fspath__`) is re-applied to every path-shaped result of the call:
`readlink`'s target, each of `listdir`'s entry names, and the
`name`/`path` of every entry yielded by a `scandir` iterator all carry
the argument path's mode, independent of any global default. -/
theorem path_encoding_round_trip (s b : OsPath)
    (frl : OsPath → Except ErrKind OsPath)
    (frd : OsPath → Except ErrKind (List (Except ErrKind RawEntry)))
    (p : PyPathLike) (r r2 r3 : PyPathResult)
    (entries : List (Except ErrKind OsPath)) (l : List PyPathResult)
    (it : ScandirIterator) (e : DirEntry) :
    (PyPathLike.try_from_object (.str s)).mode = .string ∧
    (PyPathLike.try_from_object (.bytes b)).mode = .bytes ∧
    (PyPathLike.try_from_object (.fspathStr s)).mode = .string ∧
    (PyPathLike.try_from_object (.fspathBytes b)).mode = .bytes ∧
    (readlink frl p = .ok r → r.tag = p.mode) ∧
    (listdirPath entries p = .ok l → ∀ x ∈ l, x.tag = p.mode) ∧
    (scandir frd p = .ok it → it.mode = p.mode) ∧
    ((it.next).1 = NextOutcome.entry e → e.mode = it.mode) ∧
    (DirEntry.name e = .ok r2 → r2.tag = e.mode) ∧
    (DirEntry.path e = .ok r3 → r3.tag = e.mode) := by
  refine ⟨rfl, rfl, rfl, rfl, ?_, ?_, ?_, ?_, ?_, ?_⟩
  · intro h
    unfold readlink at h
    cases hf : frl p.path with
    | error err => rw [hf] at h; cases h
    | ok target =>
      rw [hf] at h
      exact process_path_tag _ _ _ h
  · exact listdirPath_tags entries p l
  · intro h
    unfold scandir at h
    cases hf : frd p.path with
    | error err => rw [hf] at h; cases h
    | ok es =>
      rw [hf] at h
      cases h
      rfl
  · intro h
    obtain ⟨es, ex, m⟩ := it
    cases ex with
    | true => simp [ScandirIterator.next] at h
    | false =>
      cases es with
      | nil => simp [ScandirIterator.next] at h
      | cons hd tl =>
        cases hd with
        | error err => simp [ScandirIterator.next] at h
        | ok re =>
          simp only [ScandirIterator.next, Bool.false_eq_true, if_false,
            ite_false] at h
          cases h
          rfl
  · intro h
    exact process_path_tag e.mode e.file_name r2 h
  · intro h
    exact process_path_tag e.mode e.entry_path r3 h

/-- C2 witness: a bytes-mode path argument produces bytes-tagged results
through `readlink`, `listdir`, and a `scandir` entry's `name` and
`path`. -/
theorem path_encoding_round_trip_witness :
    (PyPathResult.bytes [0x62]).tag = OutputMode.bytes ∧
    (∀ x ∈ [PyPathResult.bytes [0x64]], x.tag = OutputMode.bytes) ∧
    (ScandirIterator.mode ⟨[.ok ⟨[0x65], [0x66]⟩], false, .bytes⟩ =
      OutputMode.bytes) ∧
    DirEntry.mode ⟨[0x65], [0x66], .bytes⟩ =
      ScandirIterator.mode ⟨[.ok ⟨[0x65], [0x66]⟩], false, .bytes⟩ ∧
    (PyPathResult.bytes [0x65]).tag = DirEntry.mode ⟨[0x65], [0x66], .bytes⟩ ∧
    (PyPathResult.bytes [0x66]).tag = DirEntry.mode ⟨[0x65], [0x66], .bytes⟩ := by
  have h := path_encoding_round_trip [0x61] [0x62]
    (fun _ => .ok [0x62]) (fun _ => .ok [.ok ⟨[0x65], [0x66]⟩])
    ⟨[0x63], .bytes⟩ (.bytes [0x62]) (.bytes [0x65]) (.bytes [0x66])
    [.ok [0x64]] [.bytes [0x64]]
    ⟨[.ok ⟨[0x65], [0x66]⟩], false, .bytes⟩ ⟨[0x65], [0x66], .bytes⟩
  exact ⟨h.2.2.2.2.1 (by decide), h.2.2.2.2.2.1 (by decide),
    h.2.2.2.2.2.2.1 (by decide), h.2.2.2.2.2.2.2.1 (by decide),
    h.2.2.2.2.2.2.2.2.1 (by decide), h.2.2.2.2.2.2.2.2.2 (by decide)⟩

/-- C3: `access` with the existence-only mask (F_OK = 0) returns true
iff the metadata query succeeds, with no permission-bit arithmetic (the
result does not depend on the caller's identity or groups); for any
other valid mask, with metadata available, it selects the owner triple
when the caller's uid equals the file owner, else the group triple when
the caller's group set contains the file's group, else the other
triple, and returns true iff every requested r/w/x bit is present in
the selected triple (unrequested bits ignored: the test is
`mask AND triple = mask`). -/
theorem access_permission_evaluation (metadata : Except ErrKind FileMeta)
    (user_id u2 : Nat) (gsE g2 : Except ErrKind (List Nat)) (gs : List Nat)
    (mode : Nat) (m : FileMeta) :
    (access metadata user_id gsE 0 = .ok true ↔ ∃ fm, metadata = .ok fm) ∧
    access metadata user_id gsE 0 = access metadata u2 g2 0 ∧
    (mode < 8 → mode ≠ 0 → metadata = .ok m →
      access metadata user_id (.ok gs) mode =
        .ok (decide (mode &&& claimSelectedTriple m user_id gs = mode))) := by
  refine ⟨?_, rfl, ?_⟩
  · cases metadata with
    | ok fm => simp [access]
    | error err => simp [access]
  · intro h8 h0 hm
    subst hm
    have hn8 : ¬ 8 ≤ mode := by omega
    simp only [access, hn8, if_false, ite_false, h0, get_right_permission]
    by_cases h1 : m.uid = user_id
    · simp only [claimSelectedTriple, h1, eq_self_iff_true, if_true,
        ite_true]
      rw [and_448_shiftRight]
      rw [perm_check_eq mode h8 _
        (lt_of_le_of_lt Nat.and_le_right (by norm_num))]
    · by_cases h2 : m.gid ∈ gs
      · have hc : gs.contains m.gid = true := by simpa using h2
        simp only [claimSelectedTriple, h1, if_false, ite_false, h2, hc,
          eq_self_iff_true, if_true, ite_true]
        rw [and_56_shiftRight]
        rw [perm_check_eq mode h8 _
          (lt_of_le_of_lt Nat.and_le_right (by norm_num))]
      · have hc : gs.contains m.gid = false := by simpa using h2
        simp only [claimSelectedTriple, h1, h2, hc, Bool.false_eq_true,
          if_false, ite_false]
        rw [perm_check_eq mode h8 _
          (lt_of_le_of_lt Nat.and_le_right (by norm_num))]

/-- C3 witness: a file with mode 0o754 owned by the caller grants
read+execute (mask 5); and the existence-only mask answers true on
available metadata. -/
theorem access_permission_evaluation_witness :
    access (.ok ⟨1000, 50, 0o754⟩) 1000 (.ok []) 5 = .ok true ∧
    access (.ok ⟨1000, 50, 0o754⟩) 1000 (.ok []) 0 = .ok true := by
  constructor
  · have h := (access_permission_evaluation (.ok ⟨1000, 50, 0o754⟩) 1000
      1000 (.ok []) (.ok []) [] 5 ⟨1000, 50, 0o754⟩).2.2
      (by norm_num) (by norm_num) rfl
    exact h.trans (by decide)
  · exact (access_permission_evaluation (.ok ⟨1000, 50, 0o754⟩) 1000
      1000 (.ok []) (.ok []) [] 5 ⟨1000, 50, 0o754⟩).1.mpr
      ⟨⟨1000, 50, 0o754⟩, rfl⟩

end OsRs
